import Mathlib

/-!
Verification of the iridium_weatherstation plotting script
(process_and_plot_data.py).

The script is embedded shallowly:

* CSV files are modelled as lists of rows, each row a list of strings
  (the csv library itself is an external collaborator, per the spec);
  the filesystem is a function from path to parsed rows.
* Python datetime values are modelled by a `DateTime` record validated
  the way `datetime.strptime` validates, and converted to an absolute
  second count for arithmetic; `timedelta.days` is floor division of
  the second difference by 86400, exactly as in CPython.
* Python floats are modelled by exact rationals; `float(...)` parsing is
  modelled for plain decimal literals, the only shape that occurs in the
  data files.
* Exceptions (IndexError, ValueError from strptime/float, StopIteration
  from the two header skips) are modelled by `Option`: any raised
  exception aborts the extraction and yields `none`.
* `matplotlib` calls are recorded in `PanelRender` / `FigureRender`
  values describing what the script asked the library to draw.
-/

namespace IridiumWeatherstation

/-! ### Characters and digit strings -/

def allDigits (l : List Char) : Bool :=
  l.all (fun c => c.isDigit)

def digitsToNat (l : List Char) : Nat :=
  l.foldl (fun acc c => 10 * acc + (c.toNat - 48)) 0

/-! ### Timestamps

`datetime.datetime.strptime(s, "%Y-%m-%d %H:%M:%S")`, restricted to the
zero-padded form the data files use, with the same field validation
(month 1-12, day valid for the month incl. leap years, h/m/s in range). -/

structure DateTime where
  year : Nat
  month : Nat
  day : Nat
  hour : Nat
  minute : Nat
  second : Nat
deriving DecidableEq, Repr

def isLeapYear (y : Nat) : Bool :=
  (y % 4 == 0 && y % 100 != 0) || (y % 400 == 0)

def daysInMonth (y m : Nat) : Nat :=
  if m = 2 then (if isLeapYear y then 29 else 28)
  else if m = 4 ∨ m = 6 ∨ m = 9 ∨ m = 11 then 30
  else 31

def validDateTime (dt : DateTime) : Bool :=
  decide (1 ≤ dt.year) && decide (1 ≤ dt.month) && decide (dt.month ≤ 12) &&
  decide (1 ≤ dt.day) && decide (dt.day ≤ daysInMonth dt.year dt.month) &&
  decide (dt.hour ≤ 23) && decide (dt.minute ≤ 59) && decide (dt.second ≤ 59)

def parseTimestampList : List Char → Option DateTime
  | [y1, y2, y3, y4, c1, mo1, mo2, c2, d1, d2, c3, h1, h2, c4, mi1, mi2, c5, s1, s2] =>
    if c1 == '-' && c2 == '-' && c3 == ' ' && c4 == ':' && c5 == ':' &&
        allDigits [y1, y2, y3, y4] && allDigits [mo1, mo2] && allDigits [d1, d2] &&
        allDigits [h1, h2] && allDigits [mi1, mi2] && allDigits [s1, s2] then
      let dt : DateTime :=
        { year := digitsToNat [y1, y2, y3, y4], month := digitsToNat [mo1, mo2],
          day := digitsToNat [d1, d2], hour := digitsToNat [h1, h2],
          minute := digitsToNat [mi1, mi2], second := digitsToNat [s1, s2] }
      if validDateTime dt then some dt else none
    else none
  | _ => none

def parseTimestamp (s : String) : Option DateTime :=
  parseTimestampList s.toList

/-- Civil day number (days since 0000-03-01); only differences of the
values matter, and they agree with the day differences of the proleptic
Gregorian calendar used by `datetime`. -/
def dayNumber (y m d : Nat) : Nat :=
  let y2 := if m ≤ 2 then y - 1 else y
  let era := y2 / 400
  let yoe := y2 - era * 400
  let mp := (m + 9) % 12
  let doy := (153 * mp + 2) / 5 + (d - 1)
  let doe := yoe * 365 + yoe / 4 - yoe / 100 + doy
  era * 146097 + doe

def toSeconds (dt : DateTime) : Int :=
  (dayNumber dt.year dt.month dt.day : Int) * 86400 +
    dt.hour * 3600 + dt.minute * 60 + dt.second

/-! ### Python float(...) on plain decimal strings -/

def parseIntPart : List Char → Nat → Option (Nat × List Char)
  | [], acc => some (acc, [])
  | c :: cs, acc =>
    if c == '.' then some (acc, c :: cs)
    else if c.isDigit then parseIntPart cs (10 * acc + (c.toNat - 48))
    else none

def parseFracPart : List Char → Nat → Nat → Option (Nat × Nat)
  | [], acc, n => some (acc, n)
  | c :: cs, acc, n =>
    if c.isDigit then parseFracPart cs (10 * acc + (c.toNat - 48)) (n + 1)
    else none

def parseUnsignedFloat (l : List Char) : Option ℚ :=
  match parseIntPart l 0 with
  | none => none
  | some (ip, rest) =>
    match rest with
    | [] => if l.isEmpty then none else some (ip : ℚ)
    | _ :: frac =>
      match parseFracPart frac 0 0 with
      | none => none
      | some (fv, fn) =>
        if l.length ≤ 1 then none
        else some ((ip : ℚ) + (fv : ℚ) / (10 : ℚ) ^ fn)

def parseFloatList : List Char → Option ℚ
  | [] => none
  | c :: cs =>
    if c == '-' then (parseUnsignedFloat cs).map (fun q => -q)
    else if c == '+' then parseUnsignedFloat cs
    else parseUnsignedFloat (c :: cs)

def parseFloat (s : String) : Option ℚ :=
  parseFloatList s.toList

/-! ### Station resolver (`name_from_port`) -/

def matchesAt : List Char → List Char → Bool
  | _, [] => true
  | [], _ :: _ => false
  | c :: cs, t :: ts => c == t && matchesAt cs ts

/-- Python's substring containment test on character lists. -/
def containsTok (hay needle : List Char) : Bool :=
  match hay with
  | [] => needle.isEmpty
  | _ :: rest => matchesAt hay needle || containsTok rest needle

/-- Python's `token in s` substring test. -/
def pyContains (s token : String) : Bool :=
  containsTok s.toList token.toList

def name_from_port (data_folder : String) : Option String :=
  if pyContains data_folder "2100" then some "Nahuelbuta"
  else if pyContains data_folder "2101" then some "Santa_Gracia"
  else if pyContains data_folder "2102" then some "Pan_de_Azucar"
  else if pyContains data_folder "2103" then some "La_Campana"
  else if pyContains data_folder "2104" then some "Wanne_Tuebingen"
  else none

/-! ### PlotOptions and the series extractor (`data_from_csv`) -/

/-- The mutable options bag of the script.  `today` is the absolute
second count of the `datetime.now()` value stored by the main block;
`station_name` is `None` when `name_from_port` found no match. -/
structure PlotOptions where
  queries : List (String × String)
  y_labels : List String
  ymin : List (Option ℚ)
  ymax : List (Option ℚ)
  today : Int
  todays_date : String
  folder : String
  station_name : Option String
  weekly : Bool
  plot_file_name : String
  file_path : String
  title : String
deriving Repr

/-- The measurement-name → column-index dispatch chain of
`data_from_csv`.  An unknown name leaves the initial value
`data_column = 0` (the script only prints a warning). -/
def dataColumn (name : String) : Nat :=
  if name = "wind_speed" then 7
  else if name = "wind_max" then 8
  else if name = "wind_direction" then 9
  else if name = "battery_voltage" then 2
  else if name = "air_temperature" then 2
  else if name = "air_relative_humidity" then 3
  else if name = "air_pressure" then 11
  else if name = "solar_radiation" then 4
  else if name = "soil_water_content" then 5
  else if name = "soil_temperature" then 6
  else if name = "precipitation" then 10
  else if name = "li_battery_voltage" then 3
  else 0

/-- Timestamp of a row: `strptime(line[0], "%Y-%m-%d %H:%M:%S")`,
converted to seconds. -/
def rowTs (line : List String) : Option Int :=
  ((line.get? 0).bind parseTimestamp).map toSeconds

/-- The weekly window test `(plot_options.today - data_timestamp).days <= 7`;
`timedelta.days` floors, hence `Int.fdiv`. -/
def rowKeepTime (weekly : Bool) (today ts : Int) : Bool :=
  if weekly then decide ((today - ts).fdiv 86400 ≤ 7) else true

/-- The row loop of `data_from_csv`: parse the timestamp, apply the weekly
filter, read the target column, drop the literal value "None", parse the
rest as floats.  Any exception makes the whole call fail (`none`). -/
def processRows (weekly : Bool) (today : Int) (col : Nat) :
    List (List String) → Option (List Int × List ℚ)
  | [] => some ([], [])
  | line :: rest =>
    match rowTs line with
    | none => none
    | some ts =>
      if rowKeepTime weekly today ts then
        match line.get? col with
        | none => none
        | some data =>
          if data = "None" then processRows weekly today col rest
          else
            match parseFloat data with
            | none => none
            | some v =>
              match processRows weekly today col rest with
              | none => none
              | some (xs, ys) => some (ts :: xs, v :: ys)
      else processRows weekly today col rest

/-- `data_from_csv`: open `plot_options.folder + "/" + query[1]`, skip the
two header lines (fewer than two lines raises StopIteration), then run
the row loop.  The filesystem is the function `fs` from path to parsed
csv rows. -/
def dataFromCsv (plot_options : PlotOptions) (query : String × String)
    (fs : String → List (List String)) : Option (List Int × List ℚ) :=
  let data_column := dataColumn query.1
  match fs (plot_options.folder ++ "/" ++ query.2) with
  | _ :: _ :: rest => processRows plot_options.weekly plot_options.today data_column rest
  | _ => none

/-! ### Chart composer (`plot_data_4_plots` and its drivers) -/

/-- What the script asked matplotlib to draw into one of the 4 subplots. -/
structure PanelRender where
  lineDrawn : Bool
  markers : Bool
  ylabelSet : Option String
  ylimSet : Option (Option ℚ × Option ℚ)
  gridOn : Bool
deriving Repr, DecidableEq

/-- Python truthiness of a `ymin[i]` / `ymax[i]` entry: `None` and `0.0`
are falsy. -/
def truthy : Option ℚ → Bool
  | none => false
  | some q => decide (q ≠ 0)

/-- `min_value = min(v for v in values if v)` scaled:
`min_value * 0.9 if min_value > 0.0 else min_value * 1.1`,
with `min_value = 0.0` when the filtered list is empty. -/
def autoBoundMin (ys : List ℚ) : ℚ :=
  let values := ys.filter (fun v => decide (v ≠ 0))
  let min_value : ℚ :=
    match values with
    | [] => 0
    | v :: vs => vs.foldl min v
  if min_value > 0 then min_value * (9 / 10) else min_value * (11 / 10)

/-- Symmetric rule for the maximum: `* 1.1` if positive else `* 0.9`. -/
def autoBoundMax (ys : List ℚ) : ℚ :=
  let values := ys.filter (fun v => decide (v ≠ 0))
  let max_value : ℚ :=
    match values with
    | [] => 0
    | v :: vs => vs.foldl max v
  if max_value > 0 then max_value * (11 / 10) else max_value * (9 / 10)

/-- One iteration of the subplot loop body.  Everything — plot, y-label,
the auto-bound computation and `set_ylim`, and the grid — sits under
`if len(y_values[i]) > 0`, so an empty series leaves the subplot bare.
Returns the render record and the (possibly updated) `ymin[i]`,
`ymax[i]` entries. -/
def plotOnePanel (weekly : Bool) (ymin ymax : Option ℚ) (ylabel : String)
    (ys : List ℚ) : PanelRender × Option ℚ × Option ℚ :=
  if ys.length > 0 then
    let ymin1 := if truthy ymin then ymin else some (autoBoundMin ys)
    let ymax1 := if truthy ymax then ymax else some (autoBoundMax ys)
    ({ lineDrawn := true, markers := weekly, ylabelSet := some ylabel,
       ylimSet := some (ymin1, ymax1), gridOn := true }, ymin1, ymax1)
  else
    ({ lineDrawn := false, markers := false, ylabelSet := none,
       ylimSet := none, gridOn := false }, ymin, ymax)

/-- The data-gathering loop `for query in plot_options.queries`. -/
def collectSeries (plot_options : PlotOptions) (fs : String → List (List String)) :
    List (String × String) → Option (List (List Int × List ℚ))
  | [] => some []
  | q :: qs =>
    match dataFromCsv plot_options q fs with
    | none => none
    | some d =>
      match collectSeries plot_options fs qs with
      | none => none
      | some ds => some (d :: ds)

/-- The subplot loop `for i, ax in enumerate(all_axes)`: `n` axes, reading
`y_values[i]`, `y_labels[i]`, `ymin[i]`, `ymax[i]` and writing back
`ymin[i]`, `ymax[i]`.  Iteration `i` touches exactly the `i`-th entry of
each list, so the loop is recursion on the first `n` entries; a missing
entry is an IndexError (`none`), entries beyond `n` are untouched. -/
def renderPanels (weekly : Bool) :
    Nat → List (List ℚ) → List String → List (Option ℚ) → List (Option ℚ) →
    Option (List PanelRender × List (Option ℚ) × List (Option ℚ))
  | 0, _, _, mns, mxs => some ([], mns, mxs)
  | n + 1, yvals, lbls, mns, mxs =>
    match yvals, lbls, mns, mxs with
    | ys :: yrest, lbl :: lrest, mn :: mnrest, mx :: mxrest =>
      match plotOnePanel weekly mn mx lbl ys with
      | (pr, mn1, mx1) =>
        match renderPanels weekly n yrest lrest mnrest mxrest with
        | none => none
        | some (prs, mns1, mxs1) => some (pr :: prs, mn1 :: mns1, mx1 :: mxs1)
    | _, _, _, _ => none

/-- What one call of `plot_data_4_plots` produced: the figure always has
the 4 subplots of `plt.subplots(4, 1, ...)`. -/
structure FigureRender where
  numPanels : Nat
  title : String
  panels : List PanelRender
  savedTo : String
deriving Repr

/-- `plot_data_4_plots`: gather the four series, run the subplot loop,
save the figure, and return the updated shared options object together
with the figure description. -/
def plotData4Plots (plot_options : PlotOptions) (fs : String → List (List String)) :
    Option (PlotOptions × FigureRender) :=
  match collectSeries plot_options fs plot_options.queries with
  | none => none
  | some series =>
    let y_values := series.map Prod.snd
    match renderPanels plot_options.weekly 4 y_values plot_options.y_labels
        plot_options.ymin plot_options.ymax with
    | none => none
    | some (panels, ymins1, ymaxs1) =>
      some ({ plot_options with ymin := ymins1, ymax := ymaxs1 },
        { numPanels := 4, title := plot_options.title, panels := panels,
          savedTo := plot_options.file_path })

/-- Python string interpolation of a possibly-`None` station name. -/
def stationStr : Option String → String
  | none => "None"
  | some s => s

/-- The field updates `plot_data_full` performs on the shared options
object before rendering: file path, title, `weekly = False`. -/
def fullVariant (plot_options : PlotOptions) : PlotOptions :=
  { plot_options with
    file_path := plot_options.folder ++ "/" ++ stationStr plot_options.station_name ++
      "_" ++ plot_options.plot_file_name ++ "_full.png",
    title := stationStr plot_options.station_name ++ " - Full Time Series - (as of " ++
      plot_options.todays_date ++ ")",
    weekly := false }

/-- The field updates `plot_data_weekly` performs: file path, title,
`weekly = True`. -/
def weeklyVariant (plot_options : PlotOptions) : PlotOptions :=
  { plot_options with
    file_path := plot_options.folder ++ "/" ++ stationStr plot_options.station_name ++
      "_" ++ plot_options.plot_file_name ++ "_weekly.png",
    title := stationStr plot_options.station_name ++ " - Last Week Time Series - (as of " ++
      plot_options.todays_date ++ ")",
    weekly := true }

/-- `plot_data_full`: set file path, title and `weekly = False`, then
render. -/
def plotDataFull (plot_options : PlotOptions) (fs : String → List (List String)) :
    Option (PlotOptions × FigureRender) :=
  plotData4Plots (fullVariant plot_options) fs

/-- `plot_data_weekly`: set file path, title and `weekly = True`, then
render. -/
def plotDataWeekly (plot_options : PlotOptions) (fs : String → List (List String)) :
    Option (PlotOptions × FigureRender) :=
  plotData4Plots (weeklyVariant plot_options) fs

/-- The per-group sequencing in `plot_data`: the full render first, the
weekly render second, threading the same shared options object. -/
def fullThenWeekly (plot_options : PlotOptions) (fs : String → List (List String)) :
    Option (PlotOptions × FigureRender × FigureRender) :=
  match plotDataFull plot_options fs with
  | none => none
  | some (o1, f1) =>
    match plotDataWeekly o1 fs with
    | none => none
    | some (o2, f2) => some (o2, f1, f2)

/-! ### Helper lemmas about the extractor -/

/-- Row-level retention decision of the extractor loop: a valid timestamp
that passes the weekly window, and a target-column text other than the
literal "None". -/
def rowKept (weekly : Bool) (today : Int) (col : Nat) (line : List String) : Bool :=
  match rowTs line with
  | none => false
  | some ts =>
    rowKeepTime weekly today ts &&
      match line.get? col with
      | none => false
      | some d => decide (d ≠ "None")

/-- A row the loop can process without raising: timestamp parses, and if
the weekly window keeps the row, the target column exists and is either
the "None" sentinel or float-parseable. -/
def rowOk (weekly : Bool) (today : Int) (col : Nat) (line : List String) : Bool :=
  match rowTs line with
  | none => false
  | some ts =>
    if rowKeepTime weekly today ts then
      match line.get? col with
      | none => false
      | some d => decide (d = "None") || (parseFloat d).isSome
    else true

/-- Value contributed by a retained row. -/
def rowVal (col : Nat) (line : List String) : ℚ :=
  ((line.get? col).bind parseFloat).getD 0

theorem processRows_length (weekly : Bool) (today : Int) (col : Nat) :
    ∀ rows xs ys, processRows weekly today col rows = some (xs, ys) →
      xs.length = ys.length := by
  intro rows
  induction rows with
  | nil =>
    intro xs ys h
    simp only [processRows, Option.some_inj] at h
    obtain ⟨h1, h2⟩ := Prod.mk.injEq .. ▸ h
    simp_all
  | cons line rest ih =>
    intro xs ys h
    rw [processRows] at h
    split at h
    · exact absurd h (by simp)
    · split at h
      · split at h
        · exact absurd h (by simp)
        · split at h
          · exact ih xs ys h
          · split at h
            · exact absurd h (by simp)
            · split at h
              · exact absurd h (by simp)
              · next ts d v xs1 ys1 hrec =>
                simp only [Option.some_inj, Prod.mk.injEq] at h
                obtain ⟨h1, h2⟩ := h
                subst h1; subst h2
                simp [ih xs1 ys1 hrec]
      · exact ih xs ys h

theorem processRows_char (weekly : Bool) (today : Int) (col : Nat) :
    ∀ rows, (∀ line ∈ rows, rowOk weekly today col line = true) →
      processRows weekly today col rows =
        some ((rows.filter (rowKept weekly today col)).map (fun l => (rowTs l).getD 0),
              (rows.filter (rowKept weekly today col)).map (rowVal col)) := by
  intro rows
  induction rows with
  | nil => intro _; simp [processRows]
  | cons line rest ih =>
    intro hok
    have hline := hok line (by simp)
    have hrest : ∀ l ∈ rest, rowOk weekly today col l = true := by
      intro l hl; exact hok l (by simp [hl])
    rw [processRows, ih hrest]
    rw [rowOk] at hline
    cases hts : rowTs line with
    | none => rw [hts] at hline; dsimp only at hline; simp at hline
    | some ts =>
      rw [hts] at hline
      dsimp only at hline ⊢
      by_cases hk : rowKeepTime weekly today ts = true
      · rw [if_pos hk] at hline ⊢
        cases hcol : line.get? col with
        | none => rw [hcol] at hline; dsimp only at hline; simp at hline
        | some d =>
          rw [hcol] at hline
          dsimp only at hline ⊢
          by_cases hnone : d = "None"
          · rw [if_pos hnone]
            have hkept : rowKept weekly today col line = false := by
              rw [rowKept, hts]
              dsimp only
              rw [hcol]
              simp [hnone]
            simp [List.filter, hkept]
          · rw [if_neg hnone]
            have hpf : (parseFloat d).isSome = true := by
              simp only [decide_eq_true_eq, Bool.or_eq_true] at hline
              rcases hline with h | h
              · exact absurd h hnone
              · exact h
            obtain ⟨v, hv⟩ := Option.isSome_iff_exists.mp hpf
            rw [hv]
            dsimp only
            have hkept : rowKept weekly today col line = true := by
              rw [rowKept, hts]
              dsimp only
              rw [hcol]
              simp [hk, hnone]
            rw [List.filter_cons_of_pos hkept]
            simp only [List.map_cons, Option.some_inj, Prod.mk.injEq, List.cons.injEq]
            refine ⟨⟨?_, trivial⟩, ?_, trivial⟩
            · rw [hts]; rfl
            · simp only [rowVal, hcol]
              dsimp only [Option.bind]
              rw [hv]
              rfl
      · rw [if_neg hk] at hline ⊢
        have hkept : rowKept weekly today col line = false := by
          rw [rowKept, hts]
          dsimp only
          simp [hk]
        simp [List.filter, hkept]

theorem processRows_badTs (weekly : Bool) (today : Int) (col : Nat) :
    ∀ rows, (∃ line ∈ rows, rowTs line = none) →
      processRows weekly today col rows = none := by
  intro rows
  induction rows with
  | nil => intro h; simp at h
  | cons line rest ih =>
    intro h
    rw [processRows]
    rcases h with ⟨bad, hmem, hbad⟩
    rcases List.mem_cons.mp hmem with heq | hmem2
    · subst heq
      rw [hbad]
    · have hrec := ih ⟨bad, hmem2, hbad⟩
      cases hts : rowTs line with
      | none => rfl
      | some ts =>
        dsimp only
        by_cases hk : rowKeepTime weekly today ts = true
        · rw [if_pos hk]
          cases hcol : line.get? col with
          | none => rfl
          | some d =>
            dsimp only
            by_cases hnone : d = "None"
            · rw [if_pos hnone]; exact hrec
            · rw [if_neg hnone]
              cases hpf : parseFloat d with
              | none => rfl
              | some v =>
                dsimp only
                rw [hrec]
        · rw [if_neg hk]
          exact hrec

/-! ### Helper lemmas about the subplot loop -/

theorem renderPanels_length (weekly : Bool) :
    ∀ n yvals lbls mns mxs prs mns1 mxs1,
      renderPanels weekly n yvals lbls mns mxs = some (prs, mns1, mxs1) →
      prs.length = n := by
  intro n
  induction n with
  | zero =>
    intro yvals lbls mns mxs prs mns1 mxs1 h
    simp only [renderPanels, Option.some_inj] at h
    obtain ⟨h1, -⟩ := Prod.mk.injEq .. ▸ h
    simp [← h1]
  | succ n ih =>
    intro yvals lbls mns mxs prs mns1 mxs1 h
    rcases yvals with _ | ⟨ys0, yrest⟩ <;> rcases lbls with _ | ⟨lbl0, lrest⟩ <;>
      rcases mns with _ | ⟨mn0, mnrest⟩ <;> rcases mxs with _ | ⟨mx0, mxrest⟩ <;>
      simp only [renderPanels] at h
    all_goals try exact absurd h (by simp)
    split at h
    · exact absurd h (by simp)
    · next prs1 mns2 mxs2 hrec =>
      simp only [Option.some_inj, Prod.mk.injEq] at h
      obtain ⟨h1, h2, h3⟩ := h
      subst h1
      simp [ih _ _ _ _ _ _ _ hrec]

theorem renderPanels_get (weekly : Bool) :
    ∀ n yvals lbls mns mxs prs mns1 mxs1,
      renderPanels weekly n yvals lbls mns mxs = some (prs, mns1, mxs1) →
      ∀ i, i < n →
      ∀ ys lbl mn mx, yvals.get? i = some ys → lbls.get? i = some lbl →
        mns.get? i = some mn → mxs.get? i = some mx →
        prs.get? i = some (plotOnePanel weekly mn mx lbl ys).1 ∧
        mns1.get? i = some (plotOnePanel weekly mn mx lbl ys).2.1 ∧
        mxs1.get? i = some (plotOnePanel weekly mn mx lbl ys).2.2 := by
  intro n
  induction n with
  | zero =>
    intro yvals lbls mns mxs prs mns1 mxs1 h i hi
    exact absurd hi (by simp)
  | succ n ih =>
    intro yvals lbls mns mxs prs mns1 mxs1 h i hi ys lbl mn mx hys hlbl hmn hmx
    rcases yvals with _ | ⟨ys0, yrest⟩ <;> rcases lbls with _ | ⟨lbl0, lrest⟩ <;>
      rcases mns with _ | ⟨mn0, mnrest⟩ <;> rcases mxs with _ | ⟨mx0, mxrest⟩ <;>
      simp only [renderPanels] at h
    all_goals try exact absurd h (by simp)
    split at h
    · exact absurd h (by simp)
    · next prs1 mns2 mxs2 hrec =>
      simp only [Option.some_inj, Prod.mk.injEq] at h
      obtain ⟨h1, h2, h3⟩ := h
      subst h1; subst h2; subst h3
      cases i with
      | zero =>
        simp only [List.get?] at hys hlbl hmn hmx
        obtain rfl : ys0 = ys := by injection hys
        obtain rfl : lbl0 = lbl := by injection hlbl
        obtain rfl : mn0 = mn := by injection hmn
        obtain rfl : mx0 = mx := by injection hmx
        simp
      | succ i =>
        simp only [List.get?] at hys hlbl hmn hmx ⊢
        exact ih _ _ _ _ _ _ _ hrec i (Nat.lt_of_succ_lt_succ hi) ys lbl mn mx
          hys hlbl hmn hmx

theorem renderPanels_mem (weekly : Bool) :
    ∀ n yvals lbls mns mxs prs mns1 mxs1,
      renderPanels weekly n yvals lbls mns mxs = some (prs, mns1, mxs1) →
      ∀ pr ∈ prs, ∃ ys lbl mn mx, pr = (plotOnePanel weekly mn mx lbl ys).1 := by
  intro n
  induction n with
  | zero =>
    intro yvals lbls mns mxs prs mns1 mxs1 h pr hpr
    simp only [renderPanels, Option.some_inj] at h
    obtain ⟨h1, -⟩ := Prod.mk.injEq .. ▸ h
    rw [← h1] at hpr
    simp at hpr
  | succ n ih =>
    intro yvals lbls mns mxs prs mns1 mxs1 h pr hpr
    rcases yvals with _ | ⟨ys0, yrest⟩ <;> rcases lbls with _ | ⟨lbl0, lrest⟩ <;>
      rcases mns with _ | ⟨mn0, mnrest⟩ <;> rcases mxs with _ | ⟨mx0, mxrest⟩ <;>
      simp only [renderPanels] at h
    all_goals try exact absurd h (by simp)
    split at h
    · exact absurd h (by simp)
    · next prs1 mns2 mxs2 hrec =>
      simp only [Option.some_inj, Prod.mk.injEq] at h
      obtain ⟨h1, h2, h3⟩ := h
      subst h1
      rcases List.mem_cons.mp hpr with heq | hmem
      · exact ⟨ys0, lbl0, mn0, mx0, heq⟩
      · exact ih _ _ _ _ _ _ _ hrec pr hmem

theorem plotData4Plots_inv (opts : PlotOptions) (fs : String → List (List String))
    (o : PlotOptions) (f : FigureRender) :
    plotData4Plots opts fs = some (o, f) →
    ∃ series panels mns1 mxs1,
      collectSeries opts fs opts.queries = some series ∧
      renderPanels opts.weekly 4 (series.map Prod.snd) opts.y_labels opts.ymin opts.ymax
        = some (panels, mns1, mxs1) ∧
      o = { opts with ymin := mns1, ymax := mxs1 } ∧
      f = { numPanels := 4, title := opts.title, panels := panels,
            savedTo := opts.file_path } := by
  intro h
  rw [plotData4Plots] at h
  split at h
  · exact absurd h (by simp)
  · next series hser =>
    dsimp only at h
    split at h
    · exact absurd h (by simp)
    · next panels mns1 mxs1 hrp =>
      simp only [Option.some_inj, Prod.mk.injEq] at h
      obtain ⟨h1, h2⟩ := h
      exact ⟨series, panels, mns1, mxs1, hser, hrp, h1.symm, h2.symm⟩

/-! ### Claims -/

/-- C7: `name_from_port` performs a first-match substring test against an
ordered table of 5 (token, label) pairs: every input containing the
substring "2102" anywhere (and none of the earlier tokens) yields
"Pan_de_Azucar", and every input containing none of the five tokens
yields no label. -/
theorem c7_station_resolver :
    (∀ s : String, pyContains s "2100" = false →
      pyContains s "2101" = false →
      pyContains s "2102" = true →
      name_from_port s = some "Pan_de_Azucar") ∧
    (∀ s : String, pyContains s "2100" = false →
      pyContains s "2101" = false →
      pyContains s "2102" = false →
      pyContains s "2103" = false →
      pyContains s "2104" = false →
      name_from_port s = none) := by
  constructor
  · intro s h0 h1 h2
    simp [name_from_port, h0, h1, h2]
  · intro s h0 h1 h2 h3 h4
    simp [name_from_port, h0, h1, h2, h3, h4]

/-- Witness for C7 at the concrete inputs "folder_2102_data" and
"weather". -/
theorem c7_station_resolver_witness :
    name_from_port "folder_2102_data" = some "Pan_de_Azucar" ∧
    name_from_port "weather" = none :=
  ⟨c7_station_resolver.1 "folder_2102_data" (by decide) (by decide) (by decide),
   c7_station_resolver.2 "weather" (by decide) (by decide) (by decide) (by decide)
     (by decide)⟩

/-- C8: after the 2-line header skip, column 0 of every remaining row is
parsed as a timestamp with the exact format YYYY-MM-DD HH:MM:SS; a format
mismatch anywhere makes the whole extraction fail (no partial Series is
returned). -/
theorem c8_timestamp_parse_error (opts : PlotOptions) (q : String × String)
    (fs : String → List (List String)) (r0 r1 : List String)
    (rest : List (List String))
    (hfs : fs (opts.folder ++ "/" ++ q.2) = r0 :: r1 :: rest)
    (hbad : ∃ line ∈ rest, (line.get? 0).bind parseTimestamp = none) :
    dataFromCsv opts q fs = none := by
  rw [dataFromCsv]
  rw [hfs]
  dsimp only
  apply processRows_badTs
  obtain ⟨line, hmem, hb⟩ := hbad
  exact ⟨line, hmem, by rw [rowTs, hb]; rfl⟩

/-- Witness for C8: a file whose third data row has a malformed
timestamp (day 32) makes the extraction fail even though earlier rows
are valid. -/
theorem c8_timestamp_parse_error_witness :
    dataFromCsv
      { queries := [], y_labels := [], ymin := [], ymax := [],
        today := 0, todays_date := "", folder := "st",
        station_name := none, weekly := false, plot_file_name := "",
        file_path := "", title := "" }
      ("battery_voltage", "b.csv")
      (fun p => if p = "st/b.csv" then
        [["h"], ["u"],
         ["2024-01-01 00:00:00", "1", "10"],
         ["2024-01-32 00:00:00", "1", "11"]] else []) = none := by
  exact c8_timestamp_parse_error _ _ _ ["h"] ["u"]
    [["2024-01-01 00:00:00", "1", "10"], ["2024-01-32 00:00:00", "1", "11"]]
    (by decide)
    ⟨["2024-01-32 00:00:00", "1", "11"], by decide, by decide⟩

/-- C6: `data_from_csv` returns two parallel sequences of equal length
whose elements appear in file order: the timestamps and values of the
retained rows, in the same order as those rows appear after the header
skip. -/
theorem c6_parallel_series :
    (∀ (opts : PlotOptions) (q : String × String)
        (fs : String → List (List String)) (xs : List Int) (ys : List ℚ),
      dataFromCsv opts q fs = some (xs, ys) → xs.length = ys.length) ∧
    (∀ (opts : PlotOptions) (q : String × String)
        (fs : String → List (List String)) (r0 r1 : List String)
        (rest : List (List String)),
      fs (opts.folder ++ "/" ++ q.2) = r0 :: r1 :: rest →
      (∀ line ∈ rest, rowOk opts.weekly opts.today (dataColumn q.1) line = true) →
      dataFromCsv opts q fs =
        some ((rest.filter (rowKept opts.weekly opts.today (dataColumn q.1))).map
                (fun l => (rowTs l).getD 0),
              (rest.filter (rowKept opts.weekly opts.today (dataColumn q.1))).map
                (rowVal (dataColumn q.1)))) := by
  constructor
  · intro opts q fs xs ys h
    rw [dataFromCsv] at h
    split at h
    · exact processRows_length _ _ _ _ _ _ h
    · exact absurd h (by simp)
  · intro opts q fs r0 r1 rest hfs hok
    rw [dataFromCsv]
    rw [hfs]
    dsimp only
    exact processRows_char _ _ _ _ hok

/-- Witness for C6 at a concrete 3-data-row file (one "None" row):
both sequences have length 2 and list the retained rows in order. -/
theorem c6_parallel_series_witness :
    (∃ xs ys, dataFromCsv
      { queries := [], y_labels := [], ymin := [], ymax := [],
        today := 0, todays_date := "", folder := "st",
        station_name := none, weekly := false, plot_file_name := "",
        file_path := "", title := "" }
      ("battery_voltage", "b.csv")
      (fun p => if p = "st/b.csv" then
        [["h"], ["u"],
         ["2024-01-01 00:00:00", "1", "10"],
         ["2024-01-02 00:00:00", "1", "None"],
         ["2024-01-03 00:00:00", "1", "12"]] else []) = some (xs, ys) ∧
      xs.length = ys.length ∧ xs.length = 2) := by
  have h := c6_parallel_series.2
    { queries := [], y_labels := [], ymin := [], ymax := [],
      today := 0, todays_date := "", folder := "st",
      station_name := none, weekly := false, plot_file_name := "",
      file_path := "", title := "" }
    ("battery_voltage", "b.csv")
    (fun p => if p = "st/b.csv" then
      [["h"], ["u"],
       ["2024-01-01 00:00:00", "1", "10"],
       ["2024-01-02 00:00:00", "1", "None"],
       ["2024-01-03 00:00:00", "1", "12"]] else [])
    ["h"] ["u"]
    [["2024-01-01 00:00:00", "1", "10"],
     ["2024-01-02 00:00:00", "1", "None"],
     ["2024-01-03 00:00:00", "1", "12"]]
    (by decide) (by decide)
  exact ⟨_, _, h, by decide, by decide⟩

theorem kept_count_nonweekly (today : Int) (col : Nat) :
    ∀ rest : List (List String),
      (∀ l ∈ rest, rowOk false today col l = true) →
      (rest.filter (rowKept false today col)).length =
        rest.length - (rest.filter (fun l => decide (l.get? col = some "None"))).length := by
  intro rest
  induction rest with
  | nil => intro _; simp
  | cons line rest ih =>
    intro hok
    have hline := hok line (by simp)
    have hrest : ∀ l ∈ rest, rowOk false today col l = true := by
      intro l hl; exact hok l (by simp [hl])
    have hcnt := List.length_filter_le (fun l => decide (l.get? col = some "None")) rest
    rw [rowOk] at hline
    cases hts : rowTs line with
    | none => rw [hts] at hline; dsimp only at hline; simp at hline
    | some ts =>
      rw [hts] at hline
      dsimp only at hline
      have hkt : rowKeepTime false today ts = true := rfl
      rw [if_pos hkt] at hline
      cases hcol : line.get? col with
      | none => rw [hcol] at hline; dsimp only at hline; simp at hline
      | some d =>
        by_cases hnone : d = "None"
        · have hkept : rowKept false today col line = false := by
            rw [rowKept, hts]
            dsimp only
            rw [hcol]
            simp [hnone]
          have hN : decide (line.get? col = some "None") = true := by
            simp only [hcol]
            simp [hnone]
          simp only [List.filter_cons, hkept, hN, if_true, if_false,
            Bool.false_eq_true, List.length_cons]
          rw [ih hrest]
          omega
        · have hkept : rowKept false today col line = true := by
            rw [rowKept, hts]
            dsimp only
            rw [hcol]
            simp [hkt, hnone]
          have hN : decide (line.get? col = some "None") = false := by
            simp only [hcol]
            simp [hnone]
          simp only [List.filter_cons, hkept, hN, if_true, if_false,
            Bool.false_eq_true, List.length_cons]
          rw [ih hrest]
          omega

/-- C5: a row whose target column is the literal text "None" is dropped
entirely, so for a file of otherwise valid rows (in full-series mode) the
Series length is the row count minus the 2 header lines minus the number
of "None" rows. -/
theorem c5_none_dropped (opts : PlotOptions) (q : String × String)
    (fs : String → List (List String)) (r0 r1 : List String)
    (rest : List (List String))
    (hfs : fs (opts.folder ++ "/" ++ q.2) = r0 :: r1 :: rest)
    (hw : opts.weekly = false)
    (hok : ∀ line ∈ rest, rowOk opts.weekly opts.today (dataColumn q.1) line = true) :
    ∃ xs ys, dataFromCsv opts q fs = some (xs, ys) ∧ xs.length = ys.length ∧
      ys.length = (r0 :: r1 :: rest).length - 2 -
        (rest.filter (fun l => decide (l.get? (dataColumn q.1) = some "None"))).length := by
  rw [dataFromCsv]
  rw [hfs]
  dsimp only
  rw [processRows_char _ _ _ _ hok]
  refine ⟨_, _, rfl, by simp, ?_⟩
  rw [hw] at hok
  simp only [List.length_map, List.length_cons, hw]
  rw [kept_count_nonweekly _ _ _ hok]
  omega

/-- Witness for C5: a 5-line file (2 headers, 3 data rows, one of them
"None") yields a Series of length 5 - 2 - 1 = 2. -/
theorem c5_none_dropped_witness :
    ∃ xs ys, dataFromCsv
      { queries := [], y_labels := [], ymin := [], ymax := [],
        today := 0, todays_date := "", folder := "st",
        station_name := none, weekly := false, plot_file_name := "",
        file_path := "", title := "" }
      ("battery_voltage", "b.csv")
      (fun p => if p = "st/b.csv" then
        [["h"], ["u"],
         ["2024-01-01 00:00:00", "1", "10"],
         ["2024-01-02 00:00:00", "1", "None"],
         ["2024-01-03 00:00:00", "1", "12"]] else []) = some (xs, ys) ∧
      xs.length = ys.length ∧ ys.length = 5 - 2 - 1 := by
  obtain ⟨xs, ys, heq, hlen, hcount⟩ := c5_none_dropped
    { queries := [], y_labels := [], ymin := [], ymax := [],
      today := 0, todays_date := "", folder := "st",
      station_name := none, weekly := false, plot_file_name := "",
      file_path := "", title := "" }
    ("battery_voltage", "b.csv")
    (fun p => if p = "st/b.csv" then
      [["h"], ["u"],
       ["2024-01-01 00:00:00", "1", "10"],
       ["2024-01-02 00:00:00", "1", "None"],
       ["2024-01-03 00:00:00", "1", "12"]] else [])
    ["h"] ["u"]
    [["2024-01-01 00:00:00", "1", "10"],
     ["2024-01-02 00:00:00", "1", "None"],
     ["2024-01-03 00:00:00", "1", "12"]]
    (by decide) rfl (by decide)
  refine ⟨xs, ys, heq, hlen, ?_⟩
  rw [hcount]
  decide

/-- Weekly-mode fixture: "now" is 2024-01-20 00:00:00 and the battery
file has an old row, a row 7 days and 23 hours old, a recent row and a
future row. -/
def wOpts : PlotOptions :=
  { queries := [("battery_voltage", "b.csv"), ("battery_voltage", "b.csv"),
      ("battery_voltage", "b.csv"), ("battery_voltage", "b.csv")],
    y_labels := ["a", "b", "c", "d"],
    ymin := [none, some 1, some 1, some 1],
    ymax := [some 1, some 1, some 1, some 1],
    today := toSeconds ⟨2024, 1, 20, 0, 0, 0⟩,
    todays_date := "2024.01.20 00:00:00", folder := "st",
    station_name := some "La_Campana", weekly := true,
    plot_file_name := "plot1", file_path := "", title := "" }

def wFs : String → List (List String) := fun p =>
  if p = "st/b.csv" then
    [["h"], ["u"],
     ["2024-01-01 00:00:00", "1", "10"],
     ["2024-01-12 01:00:00", "1", "11"],
     ["2024-01-19 12:00:00", "1", "12"],
     ["2024-01-25 00:00:00", "1", "13"]]
  else []

/-- C3: with the weekly flag set, a (valued) row is included in the
Series exactly when `(now - T).days <= 7` — the boundary at exactly 7
days being inclusive — and with the flag unset it is always included. -/
theorem c3_weekly_filter (opts : PlotOptions) (q : String × String)
    (fs : String → List (List String)) (r0 r1 : List String)
    (rest : List (List String)) (line : List String) (ts : Int) (d : String)
    (hfs : fs (opts.folder ++ "/" ++ q.2) = r0 :: r1 :: rest)
    (hok : ∀ l ∈ rest, rowOk opts.weekly opts.today (dataColumn q.1) l = true)
    (hmem : line ∈ rest)
    (hts : rowTs line = some ts)
    (hcol : line.get? (dataColumn q.1) = some d)
    (hd : d ≠ "None")
    (hnd : (rest.map rowTs).Nodup) :
    ∃ xs ys, dataFromCsv opts q fs = some (xs, ys) ∧
      (opts.weekly = true → (ts ∈ xs ↔ (opts.today - ts).fdiv 86400 ≤ 7)) ∧
      (opts.weekly = false → ts ∈ xs) := by
  rw [dataFromCsv]
  rw [hfs]
  dsimp only
  rw [processRows_char _ _ _ _ hok]
  refine ⟨_, _, rfl, ?_, ?_⟩
  · intro hw
    constructor
    · intro hmem2
      simp only [List.mem_map, List.mem_filter] at hmem2
      obtain ⟨l2, ⟨hl2mem, hl2kept⟩, hl2val⟩ := hmem2
      rw [rowKept] at hl2kept
      cases hts2 : rowTs l2 with
      | none => rw [hts2] at hl2kept; dsimp only at hl2kept; simp at hl2kept
      | some ts2 =>
        rw [hts2] at hl2kept
        dsimp only at hl2kept
        rw [hts2] at hl2val
        simp only [Option.getD_some] at hl2val
        subst hl2val
        have hinj := List.inj_on_of_nodup_map hnd
        have hl2 : l2 = line := hinj hl2mem hmem (by rw [hts2, hts])
        subst hl2
        simp only [Bool.and_eq_true] at hl2kept
        have hkt := hl2kept.1
        rw [rowKeepTime, hw] at hkt
        simpa using hkt
    · intro hle
      have hkept : rowKept opts.weekly opts.today (dataColumn q.1) line = true := by
        rw [rowKept, hts]
        dsimp only
        rw [hcol]
        simp [rowKeepTime, hw, hle, hd]
      refine List.mem_map.mpr ⟨line, List.mem_filter.mpr ⟨hmem, hkept⟩, ?_⟩
      rw [hts]
      rfl
  · intro hw
    have hkept : rowKept opts.weekly opts.today (dataColumn q.1) line = true := by
      rw [rowKept, hts]
      dsimp only
      rw [hcol]
      simp [rowKeepTime, hw, hd]
    exact List.mem_map.mpr ⟨line, List.mem_filter.mpr ⟨hmem, hkept⟩, by rw [hts]; rfl⟩

/-- Witness for C3: in the weekly fixture the 2024-01-19 12:00:00 row is
included exactly because its age in truncated days is at most 7. -/
theorem c3_weekly_filter_witness :
    ∃ xs ys, dataFromCsv wOpts ("battery_voltage", "b.csv") wFs = some (xs, ys) ∧
      toSeconds ⟨2024, 1, 19, 12, 0, 0⟩ ∈ xs := by
  obtain ⟨xs, ys, heq, hiff, -⟩ := c3_weekly_filter wOpts ("battery_voltage", "b.csv") wFs
    ["h"] ["u"]
    [["2024-01-01 00:00:00", "1", "10"],
     ["2024-01-12 01:00:00", "1", "11"],
     ["2024-01-19 12:00:00", "1", "12"],
     ["2024-01-25 00:00:00", "1", "13"]]
    ["2024-01-19 12:00:00", "1", "12"]
    (toSeconds ⟨2024, 1, 19, 12, 0, 0⟩) "12"
    (by decide) (by decide) (by decide) (by decide) (by decide) (by decide) (by decide)
  exact ⟨xs, ys, heq, (hiff rfl).mpr (by decide)⟩

/-- C10: because the filter compares the floored day count with 7, any
row strictly less than 8 full days old is kept in weekly mode, and so is
any row with a timestamp in the future of "now". -/
theorem c10_day_truncation (opts : PlotOptions) (q : String × String)
    (fs : String → List (List String)) (r0 r1 : List String)
    (rest : List (List String)) (line : List String) (ts : Int) (d : String)
    (hfs : fs (opts.folder ++ "/" ++ q.2) = r0 :: r1 :: rest)
    (hok : ∀ l ∈ rest, rowOk opts.weekly opts.today (dataColumn q.1) l = true)
    (hmem : line ∈ rest)
    (hts : rowTs line = some ts)
    (hcol : line.get? (dataColumn q.1) = some d)
    (hd : d ≠ "None")
    (hw : opts.weekly = true)
    (hdelta : opts.today - ts < 8 * 86400) :
    ∃ xs ys, dataFromCsv opts q fs = some (xs, ys) ∧ ts ∈ xs := by
  rw [dataFromCsv]
  rw [hfs]
  dsimp only
  rw [processRows_char _ _ _ _ hok]
  have hle : (opts.today - ts).fdiv 86400 ≤ 7 := by
    rw [Int.fdiv_eq_ediv _ (by norm_num)]
    omega
  have hkept : rowKept opts.weekly opts.today (dataColumn q.1) line = true := by
    rw [rowKept, hts]
    dsimp only
    rw [hcol]
    simp [rowKeepTime, hw, hle, hd]
  exact ⟨_, _, rfl,
    List.mem_map.mpr ⟨line, List.mem_filter.mpr ⟨hmem, hkept⟩, by rw [hts]; rfl⟩⟩

/-- Witness for C10: the row 7 days and 23 hours old and the row 5 days
in the future are both kept by the weekly filter. -/
theorem c10_day_truncation_witness :
    (∃ xs ys, dataFromCsv wOpts ("battery_voltage", "b.csv") wFs = some (xs, ys) ∧
      toSeconds ⟨2024, 1, 12, 1, 0, 0⟩ ∈ xs) ∧
    (∃ xs ys, dataFromCsv wOpts ("battery_voltage", "b.csv") wFs = some (xs, ys) ∧
      toSeconds ⟨2024, 1, 25, 0, 0, 0⟩ ∈ xs) := by
  constructor
  · exact c10_day_truncation wOpts ("battery_voltage", "b.csv") wFs
      ["h"] ["u"]
      [["2024-01-01 00:00:00", "1", "10"],
       ["2024-01-12 01:00:00", "1", "11"],
       ["2024-01-19 12:00:00", "1", "12"],
       ["2024-01-25 00:00:00", "1", "13"]]
      ["2024-01-12 01:00:00", "1", "11"]
      (toSeconds ⟨2024, 1, 12, 1, 0, 0⟩) "11"
      (by decide) (by decide) (by decide) (by decide) (by decide) (by decide) rfl
      (by decide)
  · exact c10_day_truncation wOpts ("battery_voltage", "b.csv") wFs
      ["h"] ["u"]
      [["2024-01-01 00:00:00", "1", "10"],
       ["2024-01-12 01:00:00", "1", "11"],
       ["2024-01-19 12:00:00", "1", "12"],
       ["2024-01-25 00:00:00", "1", "13"]]
      ["2024-01-25 00:00:00", "1", "13"]
      (toSeconds ⟨2024, 1, 25, 0, 0, 0⟩) "13"
      (by decide) (by decide) (by decide) (by decide) (by decide) (by decide) rfl
      (by decide)

/-- The spec's wording of the auto-scale rule for the minimum: the
minimum over the non-zero-filtered values (0.0 when there are none),
scaled by 0.9 if positive else by 1.1. -/
def specAutoMin (ys : List ℚ) : ℚ :=
  match (ys.filter (fun v => decide (v ≠ 0))).min? with
  | none => 0
  | some m => if m > 0 then m * (9 / 10) else m * (11 / 10)

/-- The spec's wording of the auto-scale rule for the maximum: scaled by
1.1 if positive else by 0.9. -/
def specAutoMax (ys : List ℚ) : ℚ :=
  match (ys.filter (fun v => decide (v ≠ 0))).max? with
  | none => 0
  | some m => if m > 0 then m * (11 / 10) else m * (9 / 10)

/-- C2: for a panel with unset y-min (resp. y-max) and a non-empty value
list, the auto-scaled bound is the min (resp. max) of the values filtered
to exclude exact zeros, times 0.9 if positive else 1.1 (symmetrically 1.1
if positive else 0.9 for the max), defaulting to 0.0 on an empty filtered
set; for values [-2.0, 3.0, 5.0] the auto min is -2.2 and the auto max
is 5.5. -/
theorem c2_auto_scale :
    (∀ (weekly : Bool) (lbl : String) (mx : Option ℚ) (ys : List ℚ), ys ≠ [] →
      (plotOnePanel weekly none mx lbl ys).2.1 = some (autoBoundMin ys)) ∧
    (∀ (weekly : Bool) (lbl : String) (mn : Option ℚ) (ys : List ℚ), ys ≠ [] →
      (plotOnePanel weekly mn none lbl ys).2.2 = some (autoBoundMax ys)) ∧
    (∀ ys : List ℚ, autoBoundMin ys = specAutoMin ys ∧ autoBoundMax ys = specAutoMax ys) ∧
    (∀ ys : List ℚ, ys.filter (fun v => decide (v ≠ 0)) = [] →
      autoBoundMin ys = 0 ∧ autoBoundMax ys = 0) ∧
    autoBoundMin [-2, 3, 5] = -2.2 ∧ autoBoundMax [-2, 3, 5] = 5.5 := by
  refine ⟨?_, ?_, ?_, ?_, ?_, ?_⟩
  · intro weekly lbl mx ys hne
    rw [plotOnePanel, if_pos (by simpa using List.length_pos.mpr hne)]
    simp [truthy]
  · intro weekly lbl mn ys hne
    rw [plotOnePanel, if_pos (by simpa using List.length_pos.mpr hne)]
    simp [truthy]
  · intro ys
    constructor
    · rw [autoBoundMin, specAutoMin]
      cases h : ys.filter (fun v => decide (v ≠ 0)) with
      | nil => simp [List.min?]
      | cons v vs => simp [List.min?]
    · rw [autoBoundMax, specAutoMax]
      cases h : ys.filter (fun v => decide (v ≠ 0)) with
      | nil => simp [List.max?]
      | cons v vs => simp [List.max?]
  · intro ys h
    rw [autoBoundMin, autoBoundMax, h]
    norm_num
  · rw [autoBoundMin]
    norm_num [List.filter_cons, List.filter_nil, min_def]
  · rw [autoBoundMax]
    norm_num [List.filter_cons, List.filter_nil, max_def]

/-- Witness for C2 at the value list [-2, 3, 5] of the spec's example. -/
theorem c2_auto_scale_witness :
    (plotOnePanel false none (some 1) "lbl" [-2, 3, 5]).2.1 = some (autoBoundMin [-2, 3, 5]) ∧
    (plotOnePanel false (some 1) none "lbl" [-2, 3, 5]).2.2 = some (autoBoundMax [-2, 3, 5]) ∧
    autoBoundMin [] = 0 ∧ autoBoundMax [] = 0 :=
  ⟨c2_auto_scale.1 false "lbl" (some 1) [-2, 3, 5] (by simp),
   c2_auto_scale.2.1 false "lbl" (some 1) [-2, 3, 5] (by simp),
   c2_auto_scale.2.2.2.1 [] (by simp)⟩

theorem isDigit_ne_marks (c : Char) (h : c.isDigit = true) :
    (c == '-') = false ∧ (c == '+') = false ∧ (c == '.') = false := by
  refine ⟨?_, ?_, ?_⟩ <;>
  · rw [beq_eq_false_iff_ne]
    rintro rfl
    exact absurd h (by decide)

theorem parseIntPart_digit (c : Char) (cs : List Char) (acc : Nat)
    (h : c.isDigit = true) :
    parseIntPart (c :: cs) acc = parseIntPart cs (10 * acc + (c.toNat - 48)) := by
  obtain ⟨-, -, hdot⟩ := isDigit_ne_marks c h
  rw [parseIntPart]
  simp [hdot, h]

/-- A string that parses as a "%Y-%m-%d %H:%M:%S" timestamp can never
parse as a float: `float(...)` chokes on the dash after the year. -/
theorem ts_not_float (l : List Char) (dt : DateTime)
    (h : parseTimestampList l = some dt) : parseFloatList l = none := by
  rcases l with _ | ⟨y1, l⟩
  · exact nomatch h
  rcases l with _ | ⟨y2, l⟩
  · exact nomatch h
  rcases l with _ | ⟨y3, l⟩
  · exact nomatch h
  rcases l with _ | ⟨y4, l⟩
  · exact nomatch h
  rcases l with _ | ⟨c1, l⟩
  · exact nomatch h
  rcases l with _ | ⟨mo1, l⟩
  · exact nomatch h
  rcases l with _ | ⟨mo2, l⟩
  · exact nomatch h
  rcases l with _ | ⟨c2, l⟩
  · exact nomatch h
  rcases l with _ | ⟨d1, l⟩
  · exact nomatch h
  rcases l with _ | ⟨d2, l⟩
  · exact nomatch h
  rcases l with _ | ⟨c3, l⟩
  · exact nomatch h
  rcases l with _ | ⟨hh1, l⟩
  · exact nomatch h
  rcases l with _ | ⟨hh2, l⟩
  · exact nomatch h
  rcases l with _ | ⟨c4, l⟩
  · exact nomatch h
  rcases l with _ | ⟨mi1, l⟩
  · exact nomatch h
  rcases l with _ | ⟨mi2, l⟩
  · exact nomatch h
  rcases l with _ | ⟨c5, l⟩
  · exact nomatch h
  rcases l with _ | ⟨s1, l⟩
  · exact nomatch h
  rcases l with _ | ⟨s2, l⟩
  · exact nomatch h
  rcases l with _ | ⟨c6, l⟩
  swap
  · exact nomatch h
  simp only [parseTimestampList] at h
  split at h
  · next hcond =>
    simp only [Bool.and_eq_true, beq_iff_eq, and_assoc] at hcond
    obtain ⟨hc1, hc2, hc3, hc4, hc5, hy, hmo, hdd, hhh, hmi, hss⟩ := hcond
    simp only [allDigits, List.all_cons, List.all_nil, Bool.and_eq_true,
      and_true, and_assoc] at hy
    obtain ⟨hy1, hy2, hy3, hy4⟩ := hy
    subst hc1
    rw [parseFloatList]
    obtain ⟨hne1, hne2, -⟩ := isDigit_ne_marks y1 hy1
    simp only [hne1, hne2, Bool.false_eq_true, if_false]
    rw [parseUnsignedFloat]
    rw [parseIntPart_digit _ _ _ hy1, parseIntPart_digit _ _ _ hy2,
      parseIntPart_digit _ _ _ hy3, parseIntPart_digit _ _ _ hy4]
    rw [parseIntPart]
    simp
  · exact absurd h (by simp)

/-- The twelve measurement names the dispatch chain of `data_from_csv`
recognises. -/
def knownMeasurements : List String :=
  ["wind_speed", "wind_max", "wind_direction", "battery_voltage",
   "air_temperature", "air_relative_humidity", "air_pressure",
   "solar_radiation", "soil_water_content", "soil_temperature",
   "precipitation", "li_battery_voltage"]

/-- Fixture for C1: a full-series run over a file with one valid data
row, queried with the unknown measurement name "humidity". -/
def c1Opts : PlotOptions :=
  { queries := [], y_labels := [], ymin := [], ymax := [],
    today := 0, todays_date := "", folder := "st",
    station_name := none, weekly := false, plot_file_name := "",
    file_path := "", title := "" }

def c1Fs : String → List (List String) := fun p =>
  if p = "st/b.csv" then
    [["h"], ["u"], ["2024-01-01 00:00:00", "1", "10"]]
  else []

/-- C1 counterexample: for the unknown measurement name "humidity" and a
file with one valid data row, the extraction does NOT return an empty
Series — it fails (the claim predicts `some ([], [])`, the code gives an
error, modelled as `none`, because column 0 holds the timestamp text,
which cannot be parsed as a float). -/
theorem c1_counterexample :
    dataFromCsv c1Opts ("humidity", "b.csv") c1Fs = none ∧
    (none : Option (List Int × List ℚ)) ≠ some ([], []) := by
  constructor
  · decide
  · decide

/-- C1 (amended): an unknown measurement name is logged and leaves the
column index at its default 0, which is the timestamp column; hence on
any file whose (sole) retained row has a valid timestamp, the extraction
fails with a float-parse error instead of returning an empty Series. -/
theorem c1_unknown_measurement (opts : PlotOptions) (name file : String)
    (fs : String → List (List String)) (r0 r1 line : List String)
    (s : String) (dt : DateTime)
    (hname : name ∉ knownMeasurements)
    (hw : opts.weekly = false)
    (hfs : fs (opts.folder ++ "/" ++ file) = [r0, r1, line])
    (h0 : line.get? 0 = some s)
    (hts : parseTimestamp s = some dt) :
    dataColumn name = 0 ∧ dataFromCsv opts (name, file) fs = none := by
  simp only [knownMeasurements, List.mem_cons, List.not_mem_nil, or_false,
    not_or] at hname
  obtain ⟨hn1, hn2, hn3, hn4, hn5, hn6, hn7, hn8, hn9, hn10, hn11, hn12⟩ := hname
  have hcol : dataColumn name = 0 := by
    rw [dataColumn]
    simp [hn1, hn2, hn3, hn4, hn5, hn6, hn7, hn8, hn9, hn10, hn11, hn12]
  refine ⟨hcol, ?_⟩
  have hsne : s ≠ "None" := by
    rintro rfl
    rw [(by decide : parseTimestamp "None" = none)] at hts
    exact absurd hts (by simp)
  have hpf : parseFloatList s.toList = none := by
    rw [parseTimestamp] at hts
    exact ts_not_float _ _ hts
  have hrow : rowTs line = some (toSeconds dt) := by
    rw [rowTs, h0]
    dsimp only [Option.bind]
    rw [hts]
    rfl
  rw [dataFromCsv]
  rw [hfs]
  dsimp only
  rw [hcol, hw, processRows, hrow]
  dsimp only
  have hkt : rowKeepTime false opts.today (toSeconds dt) = true := rfl
  rw [if_pos hkt, h0]
  dsimp only
  rw [if_neg hsne]
  have : parseFloat s = none := by rw [parseFloat]; exact hpf
  rw [this]

/-- Witness for the amended C1 at the concrete fixture. -/
theorem c1_unknown_measurement_witness :
    dataColumn "humidity" = 0 ∧
    dataFromCsv c1Opts ("humidity", "b.csv") c1Fs = none :=
  c1_unknown_measurement c1Opts "humidity" "b.csv" c1Fs
    ["h"] ["u"] ["2024-01-01 00:00:00", "1", "10"]
    "2024-01-01 00:00:00" ⟨2024, 1, 1, 0, 0, 0⟩
    (by decide) rfl (by decide) (by decide) (by decide)

/-- Fixture for C4: every query resolves, but the only data row carries
the "None" sentinel, so all four extracted Series are empty. -/
def c4Opts : PlotOptions :=
  { queries := [("battery_voltage", "b.csv"), ("battery_voltage", "b.csv"),
      ("battery_voltage", "b.csv"), ("battery_voltage", "b.csv")],
    y_labels := ["a", "b", "c", "d"],
    ymin := [some 1, some 1, some 1, some 1],
    ymax := [some 1, some 1, some 1, some 1],
    today := 0, todays_date := "", folder := "st", station_name := none,
    weekly := false, plot_file_name := "p", file_path := "f.png",
    title := "t" }

def c4Fs : String → List (List String) := fun p =>
  if p = "st/b.csv" then [["h"], ["u"], ["2024-01-01 00:00:00", "1", "None"]]
  else []

/-- C4 counterexample: with four empty Series, every panel is rendered
with NO axis formatting at all — no y-label, no y-limits, no grid — in
contradiction with the claim that an empty panel still gets its axis
formatting (y-label and bounds) applied. -/
theorem c4_counterexample :
    (plotData4Plots c4Opts c4Fs).map
        (fun r => r.2.panels.map
          (fun pr => (pr.lineDrawn, pr.ylabelSet, pr.ylimSet, pr.gridOn))) =
      some [(false, none, none, false), (false, none, none, false),
            (false, none, none, false), (false, none, none, false)] := by
  rfl

theorem renderPanels_panel (weekly : Bool) :
    ∀ n yvals lbls mns mxs prs mns1 mxs1,
      renderPanels weekly n yvals lbls mns mxs = some (prs, mns1, mxs1) →
      ∀ i, i < n → ∀ ys, yvals.get? i = some ys →
      ∃ lbl mn mx, prs.get? i = some (plotOnePanel weekly mn mx lbl ys).1 := by
  intro n
  induction n with
  | zero =>
    intro yvals lbls mns mxs prs mns1 mxs1 h i hi
    exact absurd hi (by simp)
  | succ n ih =>
    intro yvals lbls mns mxs prs mns1 mxs1 h i hi ys hys
    rcases yvals with _ | ⟨ys0, yrest⟩ <;> rcases lbls with _ | ⟨lbl0, lrest⟩ <;>
      rcases mns with _ | ⟨mn0, mnrest⟩ <;> rcases mxs with _ | ⟨mx0, mxrest⟩ <;>
      simp only [renderPanels] at h
    all_goals try exact absurd h (by simp)
    split at h
    · exact absurd h (by simp)
    · next prs1 mns2 mxs2 hrec =>
      simp only [Option.some_inj, Prod.mk.injEq] at h
      obtain ⟨h1, h2, h3⟩ := h
      subst h1
      cases i with
      | zero =>
        simp only [List.get?] at hys
        obtain rfl : ys0 = ys := by injection hys
        exact ⟨lbl0, mn0, mx0, rfl⟩
      | succ i =>
        simp only [List.get?] at hys ⊢
        exact ih _ _ _ _ _ _ _ hrec i (Nat.lt_of_succ_lt_succ hi) ys hys

/-- C4 (amended): every rendered figure has exactly 4 panels, and every
panel whose own extracted Series is empty (the Series gathered for
query `i` of the figure is the `i`-th entry of the `collectSeries`
output) is still rendered — as a bare subplot with no line drawn and
with NO axis formatting applied (y-label, y-limits and grid all left
unset) — rather than being omitted. -/
theorem c4_four_panels (opts : PlotOptions) (fs : String → List (List String))
    (o : PlotOptions) (f : FigureRender)
    (h : plotData4Plots opts fs = some (o, f)) :
    f.numPanels = 4 ∧ f.panels.length = 4 ∧
    ∀ i series xs ys, i < 4 →
      collectSeries opts fs opts.queries = some series →
      series.get? i = some (xs, ys) →
      ys = [] →
      ∃ pr, f.panels.get? i = some pr ∧ pr.lineDrawn = false ∧
        pr.ylabelSet = none ∧ pr.ylimSet = none ∧ pr.gridOn = false := by
  obtain ⟨series', panels, mns1, mxs1, hser, hrp, ho, hf⟩ := plotData4Plots_inv _ _ _ _ h
  subst hf
  refine ⟨rfl, ?_, ?_⟩
  · exact renderPanels_length _ _ _ _ _ _ _ _ _ hrp
  · intro i series xs ys hi hcol hget hys
    have hseq : series' = series := Option.some_inj.mp (hser.symm.trans hcol)
    rw [hseq] at hrp
    have hyv : (series.map Prod.snd).get? i = some ys := by
      rw [List.get?_map, hget]
      rfl
    obtain ⟨lbl, mn, mx, hpr⟩ := renderPanels_panel _ _ _ _ _ _ _ _ _ hrp i hi ys hyv
    subst hys
    rw [plotOnePanel] at hpr
    exact ⟨_, hpr, rfl, rfl, rfl, rfl⟩

/-- Witness for the amended C4 at the all-empty fixture: panel 0's own
extracted Series is empty and its subplot is rendered completely bare. -/
theorem c4_four_panels_witness :
    ∃ o f, plotData4Plots c4Opts c4Fs = some (o, f) ∧
      f.numPanels = 4 ∧ f.panels.length = 4 ∧
      ∃ pr, f.panels.get? 0 = some pr ∧ pr.lineDrawn = false ∧
        pr.ylabelSet = none ∧ pr.ylimSet = none ∧ pr.gridOn = false := by
  have hs : (plotData4Plots c4Opts c4Fs).isSome = true := by decide
  obtain ⟨p, hp⟩ := Option.isSome_iff_exists.mp hs
  obtain ⟨o, f⟩ := p
  have hc := c4_four_panels c4Opts c4Fs o f hp
  have hcol : collectSeries c4Opts c4Fs c4Opts.queries =
      some [([], []), ([], []), ([], []), ([], [])] := by decide
  obtain ⟨pr, hpr, hbare⟩ := hc.2.2 0 _ [] [] (by decide) hcol rfl rfl
  exact ⟨o, f, hp, hc.1, hc.2.1, pr, hpr, hbare⟩

/-- C9: when panel `i` has an unset y-min, the full render writes the
auto-computed bound (from the full series) back into the shared mutable
options object; the weekly render executed right after therefore reuses
that bound — applying it as the panel's lower y-limit instead of
recomputing one from its own weekly data — and it stays in the options
object afterwards (so later renders with this object reuse it too).  The
subplot loop changes only `ymin`/`ymax`: `queries`, `y_labels`, `folder`,
`today`, `weekly` and `file_path` are exactly the values the caller set.
(The reuse needs the written bound to be truthy, i.e. non-zero, which the
hypothesis `hb` records; a zero bound is falsy and would be recomputed.) -/
theorem c9_bound_writeback
    (opts o1 o2 : PlotOptions) (f1 f2 : FigureRender)
    (fs : String → List (List String)) (i : Nat)
    (seriesF seriesW : List (List Int × List ℚ))
    (xsF : List Int) (ysF : List ℚ) (xsW : List Int) (ysW : List ℚ)
    (lbl : String) (mxv : Option ℚ)
    (h1 : plotDataFull opts fs = some (o1, f1))
    (h2 : plotDataWeekly o1 fs = some (o2, f2))
    (hi : i < 4)
    (hunset : opts.ymin.get? i = some none)
    (hmx : opts.ymax.get? i = some mxv)
    (hlbl : opts.y_labels.get? i = some lbl)
    (hcolF : collectSeries (fullVariant opts) fs opts.queries = some seriesF)
    (hgetF : seriesF.get? i = some (xsF, ysF))
    (hneF : ysF ≠ [])
    (hb : autoBoundMin ysF ≠ 0)
    (hcolW : collectSeries (weeklyVariant o1) fs opts.queries = some seriesW)
    (hgetW : seriesW.get? i = some (xsW, ysW))
    (hneW : ysW ≠ []) :
    fullThenWeekly opts fs = some (o2, f1, f2) ∧
    o1.ymin.get? i = some (some (autoBoundMin ysF)) ∧
    o2.ymin.get? i = some (some (autoBoundMin ysF)) ∧
    (∃ prW mx2, f2.panels.get? i = some prW ∧ prW.lineDrawn = true ∧
      prW.ylimSet = some (some (autoBoundMin ysF), mx2)) ∧
    o1.queries = opts.queries ∧ o1.y_labels = opts.y_labels ∧
    o1.folder = opts.folder ∧ o1.today = opts.today ∧
    o1.weekly = false ∧ o1.file_path = (fullVariant opts).file_path := by
  have hftw : fullThenWeekly opts fs = some (o2, f1, f2) := by
    rw [fullThenWeekly, h1]
    dsimp only
    rw [h2]
  rw [plotDataFull] at h1
  obtain ⟨sF, pF, mnsF, mxsF, hserF, hrpF, ho1, hf1⟩ := plotData4Plots_inv _ _ _ _ h1
  have hserF2 : collectSeries (fullVariant opts) fs opts.queries = some sF := hserF
  have hsF : sF = seriesF := Option.some_inj.mp (hserF2.symm.trans hcolF)
  rw [hsF] at hrpF
  have hyvF : (seriesF.map Prod.snd).get? i = some ysF := by
    rw [List.get?_map, hgetF]
    rfl
  have hrpF2 : renderPanels false 4 (seriesF.map Prod.snd) opts.y_labels
      opts.ymin opts.ymax = some (pF, mnsF, mxsF) := hrpF
  obtain ⟨hprF, hmnF, hmxF⟩ :=
    renderPanels_get _ _ _ _ _ _ _ _ _ hrpF2 i hi ysF lbl none mxv hyvF hlbl hunset hmx
  have hpanelF : (plotOnePanel false none mxv lbl ysF).2.1 = some (autoBoundMin ysF) := by
    rw [plotOnePanel, if_pos (by simpa using List.length_pos.mpr hneF)]
    simp [truthy]
  have ho1ymin : o1.ymin.get? i = some (some (autoBoundMin ysF)) := by
    rw [ho1]
    dsimp only
    rw [hmnF, hpanelF]
  subst ho1
  rw [plotDataWeekly] at h2
  obtain ⟨sW, pW, mnsW, mxsW, hserW, hrpW, ho2, hf2⟩ := plotData4Plots_inv _ _ _ _ h2
  have hserW2 : collectSeries
      (weeklyVariant { fullVariant opts with ymin := mnsF, ymax := mxsF }) fs
      opts.queries = some sW := hserW
  have hsW : sW = seriesW := Option.some_inj.mp (hserW2.symm.trans hcolW)
  rw [hsW] at hrpW
  have hyvW : (seriesW.map Prod.snd).get? i = some ysW := by
    rw [List.get?_map, hgetW]
    rfl
  have hrpW2 : renderPanels true 4 (seriesW.map Prod.snd) opts.y_labels
      mnsF mxsF = some (pW, mnsW, mxsW) := hrpW
  have hmnF2 : mnsF.get? i = some (some (autoBoundMin ysF)) := by
    rw [hmnF, hpanelF]
  obtain ⟨hprW, hmnW, hmxW⟩ :=
    renderPanels_get _ _ _ _ _ _ _ _ _ hrpW2 i hi ysW lbl
      (some (autoBoundMin ysF)) ((plotOnePanel false none mxv lbl ysF).2.2)
      hyvW hlbl hmnF2 hmxF
  have htr : truthy (some (autoBoundMin ysF)) = true := by
    simp [truthy, hb]
  have hlenW : ysW.length > 0 := by simpa using List.length_pos.mpr hneW
  refine ⟨hftw, ho1ymin, ?_, ?_, rfl, rfl, rfl, rfl, rfl, rfl⟩
  · rw [ho2]
    dsimp only
    rw [hmnW]
    rw [plotOnePanel, if_pos hlenW]
    simp [htr]
  · refine ⟨(plotOnePanel true (some (autoBoundMin ysF))
        ((plotOnePanel false none mxv lbl ysF).2.2) lbl ysW).1,
      (if truthy ((plotOnePanel false none mxv lbl ysF).2.2)
        then ((plotOnePanel false none mxv lbl ysF).2.2)
        else some (autoBoundMax ysW)), ?_, ?_, ?_⟩
    · rw [hf2]
      dsimp only
      exact hprW
    · rw [plotOnePanel, if_pos hlenW]
    · rw [plotOnePanel, if_pos hlenW]
      simp [htr]

/-! Concrete values realised by the weekly fixture in the full-then-weekly
sequence, used to witness C9. -/

def c9ysF : List ℚ := [10, 11, 12, 13]

def c9ysW : List ℚ := [11, 12, 13]

def c9xsF : List Int :=
  [toSeconds ⟨2024, 1, 1, 0, 0, 0⟩, toSeconds ⟨2024, 1, 12, 1, 0, 0⟩,
   toSeconds ⟨2024, 1, 19, 12, 0, 0⟩, toSeconds ⟨2024, 1, 25, 0, 0, 0⟩]

def c9xsW : List Int :=
  [toSeconds ⟨2024, 1, 12, 1, 0, 0⟩, toSeconds ⟨2024, 1, 19, 12, 0, 0⟩,
   toSeconds ⟨2024, 1, 25, 0, 0, 0⟩]

def c9seriesF : List (List Int × List ℚ) :=
  [(c9xsF, c9ysF), (c9xsF, c9ysF), (c9xsF, c9ysF), (c9xsF, c9ysF)]

def c9seriesW : List (List Int × List ℚ) :=
  [(c9xsW, c9ysW), (c9xsW, c9ysW), (c9xsW, c9ysW), (c9xsW, c9ysW)]

def c9o1 : PlotOptions :=
  { wOpts with
    ymin := [some 9, some 1, some 1, some 1],
    weekly := false,
    file_path := "st/La_Campana_plot1_full.png",
    title := "La_Campana - Full Time Series - (as of 2024.01.20 00:00:00)" }

def c9o2 : PlotOptions :=
  { c9o1 with
    weekly := true,
    file_path := "st/La_Campana_plot1_weekly.png",
    title := "La_Campana - Last Week Time Series - (as of 2024.01.20 00:00:00)" }

def c9f1 : FigureRender :=
  { numPanels := 4,
    title := "La_Campana - Full Time Series - (as of 2024.01.20 00:00:00)",
    savedTo := "st/La_Campana_plot1_full.png",
    panels :=
      [{ lineDrawn := true, markers := false, ylabelSet := some "a",
         ylimSet := some (some 9, some 1), gridOn := true },
       { lineDrawn := true, markers := false, ylabelSet := some "b",
         ylimSet := some (some 1, some 1), gridOn := true },
       { lineDrawn := true, markers := false, ylabelSet := some "c",
         ylimSet := some (some 1, some 1), gridOn := true },
       { lineDrawn := true, markers := false, ylabelSet := some "d",
         ylimSet := some (some 1, some 1), gridOn := true }] }

def c9f2 : FigureRender :=
  { numPanels := 4,
    title := "La_Campana - Last Week Time Series - (as of 2024.01.20 00:00:00)",
    savedTo := "st/La_Campana_plot1_weekly.png",
    panels :=
      [{ lineDrawn := true, markers := true, ylabelSet := some "a",
         ylimSet := some (some 9, some 1), gridOn := true },
       { lineDrawn := true, markers := true, ylabelSet := some "b",
         ylimSet := some (some 1, some 1), gridOn := true },
       { lineDrawn := true, markers := true, ylabelSet := some "c",
         ylimSet := some (some 1, some 1), gridOn := true },
       { lineDrawn := true, markers := true, ylabelSet := some "d",
         ylimSet := some (some 1, some 1), gridOn := true }] }

/-- Witness for C9: in the weekly fixture, the full render computes the
bound 0.9 · 10 = 9 for panel 0, writes it back, and the weekly render
applies that same bound (its own data would have given 0.9 · 11). -/
theorem c9_bound_writeback_witness :
    fullThenWeekly wOpts wFs = some (c9o2, c9f1, c9f2) ∧
    c9o1.ymin.get? 0 = some (some (autoBoundMin c9ysF)) ∧
    c9o2.ymin.get? 0 = some (some (autoBoundMin c9ysF)) ∧
    (∃ prW mx2, c9f2.panels.get? 0 = some prW ∧ prW.lineDrawn = true ∧
      prW.ylimSet = some (some (autoBoundMin c9ysF), mx2)) := by
  obtain ⟨hftw, ho1, ho2, hpan, -, -, -, -, -, -⟩ :=
    c9_bound_writeback wOpts c9o1 c9o2 c9f1 c9f2 wFs 0 c9seriesF c9seriesW
      c9xsF c9ysF c9xsW c9ysW "a" (some 1)
      (by with_unfolding_all rfl)
      (by with_unfolding_all rfl)
      (by decide) (by decide) (by decide) (by decide)
      (by with_unfolding_all rfl)
      rfl
      (by decide)
      (by rw [show autoBoundMin c9ysF = (9 : ℚ) from by with_unfolding_all rfl]; norm_num)
      (by with_unfolding_all rfl)
      rfl
      (by decide)
  exact ⟨hftw, ho1, ho2, hpan⟩

end IridiumWeatherstation
